import Mathlib

/-!
Shallow embedding of the two stateful control loops of the smart-tuya
repository: the hysteresis charge controller (`src/battery_manager.py`)
and the connectivity monitor (`src/monitor_service.py`).

External effects (telemetry writes, device commands, notifications, log
prints) are reified as an `Effect` list produced by each tick; state held
across ticks is passed explicitly.  Fallible external calls (the device
command, the connectivity query, the status query) are inputs of each
tick, an `Except`/sum value standing for what the call returned or threw.
-/

/-- One observable side effect of a tick, in program order. -/
inductive Effect
  /-- `write_to_influx(measurement, fields, tags)`: fields are named
  numeric or boolean values, tags named strings. -/
  | telemetry (measurement : String)
      (numFields : List (String × Int)) (boolFields : List (String × Bool))
      (tags : List (String × String))
  /-- A device switch command was sent (`dev.turn_on`/`turn_off`/
  `sendcommand`), with the requested direction. -/
  | command (turnOn : Bool)
  /-- `send_notification(title, message, urgency)`. -/
  | notify (title : String) (body : String) (urgency : String)
  /-- a `print(...)` log line (content abstracted). -/
  | log (msg : String)
  deriving DecidableEq, Repr

/-- `last_action` in `battery_manager.main`: the last successfully issued
relay command, `none` at process start. -/
inductive ChargeAction
  | ON
  | OFF
  deriving DecidableEq, Repr

/-- `psutil.sensors_battery()` result (the spec's BatteryReading:
percent is a 0–100 integer). -/
structure BatteryReading where
  percent : Int
  isPluggedIn : Bool
  deriving DecidableEq, Repr

/-- `ALLOWED_SSIDS` in `battery_manager.py`. -/
def ALLOWED_SSIDS : List String :=
  ["frans-extender", "frans-extender_5G", "Frans", "Frans-IOT"]

/-- `BATTERY_MAX` in `battery_manager.py`. -/
def BATTERY_MAX : Int := 100

/-- `BATTERY_MIN` in `battery_manager.py`. -/
def BATTERY_MIN : Int := 20

/-- `ssid not in ALLOWED_SSIDS` (Python): a `None` ssid is never a member. -/
def ssidAllowed : Option String → Bool
  | none => false
  | some s => ALLOWED_SSIDS.contains s

/-- `control_switch_2(turn_on)`: attempts the device command; on success
sends the normal notification and returns `True`, on an exception `e`
sends the critical notification and returns `False`.  `cmdResult` is what
the underlying tinytuya call did (`.ok` = completed, `.error e` = threw). -/
def control_switch_2 (turn_on : Bool) (cmdResult : Except String Unit) :
    Bool × List Effect :=
  let action := if turn_on then "ON" else "OFF"
  match cmdResult with
  | .ok _ =>
      (true,
        [Effect.log ("Turning Switch 2 " ++ action),
         Effect.command turn_on,
         Effect.notify ("Battery Manager: Charging " ++ action)
           ("Switch 2 turned " ++ action ++ " because battery reached limit.")
           "normal"])
  | .error e =>
      (false,
        [Effect.log ("Turning Switch 2 " ++ action),
         Effect.command turn_on,
         Effect.log ("Error controlling device: " ++ e),
         Effect.notify "Battery Manager Error"
           ("Failed to control switch: " ++ e) "critical"])

/-- One iteration of the `while True` body of `battery_manager.main`.
Inputs: the held `last_action`, the ssid read, the battery read (`none`
when `psutil` has no data), and the outcome of the device command should
one be attempted.  Returns the new `last_action` and the effects. -/
def bmTick (last_action : Option ChargeAction) (ssid : Option String)
    (battery : Option BatteryReading) (cmdResult : Except String Unit) :
    Option ChargeAction × List Effect :=
  if ssidAllowed ssid = false then
    (last_action, [Effect.log "Not allowed. Skipping check."])
  else
    match battery with
    | none => (last_action, [Effect.log "Battery information not available."])
    | some b =>
      let telem := Effect.telemetry "battery_status"
        [("percent", b.percent)] [("plugged", b.isPluggedIn)]
        [("ssid", ssid.getD ""), ("device", "laptop")]
      if BATTERY_MAX ≤ b.percent ∧ b.isPluggedIn = true then
        -- Battery full: cut power (command sent regardless of last_action)
        let r := control_switch_2 false cmdResult
        ((if r.1 then some ChargeAction.OFF else last_action),
          [telem, Effect.log "Battery full. Cutting power..."] ++ r.2)
      else if b.percent < BATTERY_MIN ∧ b.isPluggedIn = false then
        if last_action ≠ some ChargeAction.ON then
          let r := control_switch_2 true cmdResult
          ((if r.1 then some ChargeAction.ON else last_action),
            [telem, Effect.log "Battery low. Starting power..."] ++ r.2)
        else (last_action, [telem])
      else (last_action, [telem])

/-- The device commands among a tick's effects, in order. -/
def cmdEffects (effs : List Effect) : List Bool :=
  effs.filterMap fun e =>
    match e with
    | Effect.command b => some b
    | _ => none

/-- The notifications among a tick's effects, as (title, body, urgency). -/
def notifEffects (effs : List Effect) : List (String × String × String) :=
  effs.filterMap fun e =>
    match e with
    | Effect.notify t b u => some (t, b, u)
    | _ => none

/-- The telemetry writes among a tick's effects. -/
def telemCount (effs : List Effect) : Nat :=
  (effs.filter fun e =>
    match e with
    | Effect.telemetry _ _ _ _ => true
    | _ => false).length

/-! ## Connectivity monitor (`src/monitor_service.py`) -/

/-- Python `needle in haystack` on characters: `hasPref s p` is true when
`p` is a leading block of `s`. -/
def hasPref : List Char → List Char → Bool
  | _, [] => true
  | [], _ :: _ => false
  | a :: as, b :: bs => a == b && hasPref as bs

/-- `hasSub s p`: `p` occurs contiguously somewhere in `s`
(Python `p in s`). -/
def hasSub : List Char → List Char → Bool
  | [], p => p.isEmpty
  | a :: as, p => hasPref (a :: as) p || hasSub as p

/-- Python `p in s` on strings. -/
def strContains (s p : String) : Bool := hasSub s.toList p.toList

/-- Fuel-driven worker for Python `str.split(sep)` (sep nonempty; fuel
`s.length + 1` always suffices). -/
def splitGo : Nat → List Char → List Char → List Char → List (List Char)
  | 0, s, _, acc => [acc.reverse ++ s]
  | fuel + 1, s, sep, acc =>
    match s with
    | [] => [acc.reverse]
    | c :: rest =>
      if hasPref (c :: rest) sep then
        acc.reverse :: splitGo fuel (List.drop sep.length (c :: rest)) sep []
      else
        splitGo fuel rest sep (c :: acc)

/-- Python `s.split(sep)` for a nonempty separator: every occurrence
splits; the result is never empty. -/
def pySplit (s sep : String) : List String :=
  (splitGo (s.toList.length + 1) s.toList sep.toList []).map List.asString

/-- Fuel-driven worker for Python `str.replace(pat, rep)` (pat nonempty). -/
def replGo : Nat → List Char → List Char → List Char → List Char
  | 0, s, _, _ => s
  | fuel + 1, s, pat, rep =>
    match s with
    | [] => []
    | c :: rest =>
      if hasPref (c :: rest) pat then
        rep ++ replGo fuel (List.drop pat.length (c :: rest)) pat rep
      else
        c :: replGo fuel rest pat rep

/-- Python `s.replace(pat, rep)` for a nonempty pattern. -/
def pyReplace (s pat rep : String) : String :=
  (replGo (s.toList.length + 1) s.toList pat.toList rep.toList).asString

/-- Python `sep.join(xs)`. -/
def pyJoin (sep : String) : List String → String
  | [] => ""
  | [x] => x
  | x :: y :: rest => x ++ sep ++ pyJoin sep (y :: rest)

/-- Python `s.startswith(p)`. -/
def pyStartsWith (s p : String) : Bool := hasPref s.toList p.toList

/-- ASCII apostrophe, written by code point so the source text stays free
of quote characters. -/
def apos : String := (Char.ofNat 39).toString

/-- The access-forbidden pattern tested against the error payload:
`"don't have access to this API"`. -/
def accessPat : String := "don" ++ apos ++ "t have access to this API"

/-- What `c.getconnectstatus(DEVICE_ID)` returned: a plain boolean, or a
dict carrying an `Error` key with its `Error` message and `Payload`. -/
inductive ConnResp
  | ok (b : Bool)
  | errDict (errorMsg : String) (payload : String)
  deriving DecidableEq, Repr

/-- One `{code, value}` item of the device status result list. -/
structure SwitchItem where
  code : String
  value : Bool
  deriving DecidableEq, Repr

/-- What `c.getstatus(DEVICE_ID)` did: threw, returned a dict without a
`result` key (`none`), or returned the item list under `result`. -/
def StatusResp : Type := Except String (Option (List SwitchItem))

/-- `DEVICE_NAME` in `monitor_service.py`. -/
def DEVICE_NAME : String := "Socket Kamar Tidur"

/-- `get_socket_details(c, device_id)`: formats the switch codes into a
comma-separated `label: ON/OFF` list; any failure (exception or missing
`result` key) yields "Details unavailable". -/
def get_socket_details (status : StatusResp) : String :=
  match status with
  | .error _ => "Details unavailable"
  | .ok none => "Details unavailable"
  | .ok (some items) =>
    let details := items.filterMap fun item =>
      if pyStartsWith item.code "switch" then
        some (pyReplace (pyReplace item.code "switch_" "S") "switch" "S"
          ++ ": " ++ (if item.value then "ON" else "OFF"))
      else none
    pyJoin ", " details

/-- The `clean_msg` computation inside the access-error branch:
`payload.split("your ip(")[1].split(")")[0]` under a `try` whose failure
(the IndexError when the separator is absent) keeps the generic text. -/
def clean_msg (payload : String) : String :=
  let generic := "Your IP address is not whitelisted in Tuya Cloud."
  if strContains payload "your ip" then
    match pySplit payload ("your ip" ++ "(") with
    | _ :: second :: _ =>
      match pySplit second ")" with
      | ipAddr :: _ =>
        "Your IP (" ++ ipAddr ++ ") is not whitelisted in Tuya Cloud."
      | [] => generic
    | _ => generic
  else generic

/-- The state `monitor_service.main` holds across ticks. -/
structure MonState where
  /-- `last_is_online`: `none` is the initial UNKNOWN. -/
  last_is_online : Option Bool
  /-- `last_api_error_notified` (the spec's ApiErrorFlag). -/
  last_api_error_notified : Bool
  deriving DecidableEq, Repr

/-- One iteration of the `while True` body of `monitor_service.main`.
`conn` is what `getconnectstatus` did (`.error` = threw out of the tick
body), `status` is what `getstatus` would return if the tick fetches the
switch summary. -/
def monTick (st : MonState) (conn : Except String ConnResp)
    (status : StatusResp) : MonState × List Effect :=
  match conn with
  | .error e =>
    -- top-level except: log, change nothing
    (st, [Effect.log ("Error checking status: " ++ e)])
  | .ok resp =>
    -- classification of the response
    let cls : Bool × Bool × List Effect :=
      match resp with
      | .errDict errorMsg payload =>
        let logE := Effect.log
          ("Error checking status: " ++ errorMsg ++ " - " ++ payload)
        if strContains payload accessPat then
          if st.last_api_error_notified then (false, true, [logE])
          else
            (false, true,
              [logE,
               Effect.notify "Tuya API Access Error"
                 (clean_msg payload ++
                   "\nPlease update the whitelist in Tuya IoT Platform.")
                 "critical"])
        else (false, st.last_api_error_notified, [logE])
      | .ok b => (b, false, [])
    let is_online := cls.1
    let notified := cls.2.1
    let effs1 := cls.2.2
    match st.last_is_online with
    | none =>
      -- first run: record the state; notify only if online
      let effs2 :=
        if is_online then
          [Effect.notify (DEVICE_NAME ++ " is Online")
            ("Initial Status: " ++ get_socket_details status) "normal"]
        else []
      (⟨some is_online, notified⟩,
        effs1 ++ [Effect.log "Initial Status"] ++ effs2)
    | some last =>
      if is_online ≠ last then
        if is_online then
          (⟨some is_online, notified⟩,
            effs1 ++
              [Effect.notify (DEVICE_NAME ++ " is Online")
                ("Reconnected. Status: " ++ get_socket_details status)
                "normal",
               Effect.log "Status Changed: OFFLINE -> ONLINE"])
        else
          (⟨some is_online, notified⟩,
            effs1 ++
              [Effect.notify (DEVICE_NAME ++ " is Offline")
                "The device is not connected to WiFi or is unavailable."
                "critical",
               Effect.log "Status Changed: ONLINE -> OFFLINE"])
      else
        (⟨st.last_is_online, notified⟩, effs1)

/-- Run a sequence of monitor ticks; `status` is the (fixed) device status
used whenever a tick fetches the switch summary.  Returns the final state
and the per-tick effect lists. -/
def monRun (st : MonState) (conns : List (Except String ConnResp))
    (status : StatusResp) : MonState × List (List Effect) :=
  match conns with
  | [] => (st, [])
  | c :: rest =>
    let r := monTick st c status
    let rr := monRun r.1 rest status
    (rr.1, r.2 :: rr.2)

/-- Number of notifications in one tick's effects. -/
def notifCount (effs : List Effect) : Nat := (notifEffects effs).length

/-- The notifications of one tick whose title is the access-error title. -/
def accessNotifCount (effs : List Effect) : Nat :=
  ((notifEffects effs).filter fun n => n.1 == "Tuya API Access Error").length

/-! ## Theorems -/

/-- C7: a tick whose network identity is not allow-listed writes no
telemetry, issues no command, fires no notification, and leaves the held
`ChargeAction` unchanged, for any battery reading and command outcome. -/
theorem C7_untrusted_network_is_silent (st : Option ChargeAction)
    (ssid : Option String) (battery : Option BatteryReading)
    (cr : Except String Unit) (h : ssidAllowed ssid = false) :
    (bmTick st ssid battery cr).1 = st ∧
    telemCount (bmTick st ssid battery cr).2 = 0 ∧
    cmdEffects (bmTick st ssid battery cr).2 = [] ∧
    notifEffects (bmTick st ssid battery cr).2 = [] := by
  simp [bmTick, h, telemCount, cmdEffects, notifEffects]

/-- Witness for C7 at a concrete untrusted ssid and reading. -/
theorem C7_untrusted_network_is_silent_witness :
    ssidAllowed (some "CoffeeShopWiFi") = false ∧
    ((bmTick (some ChargeAction.ON) (some "CoffeeShopWiFi")
        (some ⟨5, false⟩) (Except.ok ())).1 = some ChargeAction.ON ∧
      telemCount (bmTick (some ChargeAction.ON) (some "CoffeeShopWiFi")
        (some ⟨5, false⟩) (Except.ok ())).2 = 0 ∧
      cmdEffects (bmTick (some ChargeAction.ON) (some "CoffeeShopWiFi")
        (some ⟨5, false⟩) (Except.ok ())).2 = [] ∧
      notifEffects (bmTick (some ChargeAction.ON) (some "CoffeeShopWiFi")
        (some ⟨5, false⟩) (Except.ok ())).2 = []) :=
  ⟨by decide,
    C7_untrusted_network_is_silent (some ChargeAction.ON)
      (some "CoffeeShopWiFi") (some ⟨5, false⟩) (Except.ok ()) (by decide)⟩

/-- C1 counterexample: with a trusted network, percent = BATTERY_MAX,
plugged in, and the held action already OFF, the tick nevertheless issues
an OFF command (the full-and-plugged branch has no `last_action` guard;
the source comments call it a deliberate forced retry).  This refutes the
claim that no command is issued when the held action already matches. -/
theorem C1_counterexample :
    cmdEffects (bmTick (some ChargeAction.OFF) (some "Frans")
      (some ⟨100, true⟩) (Except.ok ())).2 = [false] := by decide

/-- C1 amended: on a trusted network with `percent ≥ BATTERY_MAX` and
plugged in, a tick whose held action is already OFF issues exactly one
OFF command anyway, and the held action stays OFF. -/
theorem C1_off_reissued_when_already_off (ssid : Option String)
    (b : BatteryReading) (cr : Except String Unit)
    (hs : ssidAllowed ssid = true) (hp : BATTERY_MAX ≤ b.percent)
    (hplug : b.isPluggedIn = true) :
    cmdEffects (bmTick (some ChargeAction.OFF) ssid (some b) cr).2 = [false] ∧
    (bmTick (some ChargeAction.OFF) ssid (some b) cr).1 =
      some ChargeAction.OFF := by
  have : ¬ ssidAllowed ssid = false := by simp [hs]
  cases cr <;>
    simp [bmTick, this, hp, hplug, control_switch_2, cmdEffects]

/-- Witness for C1's amended theorem at percent 100 on an allowed ssid. -/
theorem C1_off_reissued_when_already_off_witness :
    ssidAllowed (some "Frans-IOT") = true ∧ BATTERY_MAX ≤ (100 : Int) ∧
    (cmdEffects (bmTick (some ChargeAction.OFF) (some "Frans-IOT")
        (some ⟨100, true⟩) (Except.error "boom")).2 = [false] ∧
      (bmTick (some ChargeAction.OFF) (some "Frans-IOT")
        (some ⟨100, true⟩) (Except.error "boom")).1 =
        some ChargeAction.OFF) :=
  ⟨by decide, by decide,
    C1_off_reissued_when_already_off (some "Frans-IOT") ⟨100, true⟩
      (Except.error "boom") (by decide) (by decide) rfl⟩

/-- C3: the hysteresis invariant of the charge controller.  A tick (on
any network, any command outcome) transitions the held action to OFF from
ON only when full-and-plugged, transitions to ON from not-ON only when
low-and-unplugged, issues no command in the dead zone
`BATTERY_MIN ≤ percent < BATTERY_MAX`, and never issues a further ON
command while the held action is already ON. -/
theorem C3_hysteresis_invariant (st : Option ChargeAction)
    (ssid : Option String) (b : BatteryReading) (cr : Except String Unit) :
    ((st = some ChargeAction.ON ∧
        (bmTick st ssid (some b) cr).1 = some ChargeAction.OFF) →
      BATTERY_MAX ≤ b.percent ∧ b.isPluggedIn = true) ∧
    ((st ≠ some ChargeAction.ON ∧
        (bmTick st ssid (some b) cr).1 = some ChargeAction.ON) →
      b.percent < BATTERY_MIN ∧ b.isPluggedIn = false) ∧
    ((BATTERY_MIN ≤ b.percent ∧ b.percent < BATTERY_MAX) →
      cmdEffects (bmTick st ssid (some b) cr).2 = []) ∧
    (st = some ChargeAction.ON →
      true ∉ cmdEffects (bmTick st ssid (some b) cr).2) := by
  obtain ⟨p, plug⟩ := b
  unfold bmTick
  by_cases hs : ssidAllowed ssid = false <;>
    cases plug <;> cases cr <;>
    simp_all [control_switch_2, cmdEffects, BATTERY_MAX, BATTERY_MIN] <;>
    (try split_ifs) <;> (try simp_all)

/-- Witness for C3: each conjunct applied at a concrete input that
satisfies its hypothesis. -/
theorem C3_hysteresis_invariant_witness :
    (BATTERY_MAX ≤ (100 : Int) ∧
      (⟨100, true⟩ : BatteryReading).isPluggedIn = true) ∧
    ((19 : Int) < BATTERY_MIN ∧
      (⟨19, false⟩ : BatteryReading).isPluggedIn = false) ∧
    cmdEffects (bmTick none (some "Frans") (some ⟨50, true⟩)
      (Except.ok ())).2 = [] ∧
    true ∉ cmdEffects (bmTick (some ChargeAction.ON) (some "Frans")
      (some ⟨19, false⟩) (Except.ok ())).2 := by
  refine ⟨?_, ?_, ?_, ?_⟩
  · exact (C3_hysteresis_invariant (some ChargeAction.ON) (some "Frans")
      ⟨100, true⟩ (Except.ok ())).1 ⟨rfl, by decide⟩
  · exact (C3_hysteresis_invariant none (some "Frans")
      ⟨19, false⟩ (Except.ok ())).2.1 ⟨by decide, by decide⟩
  · exact (C3_hysteresis_invariant none (some "Frans")
      ⟨50, true⟩ (Except.ok ())).2.2.1 (by decide)
  · exact (C3_hysteresis_invariant (some ChargeAction.ON) (some "Frans")
      ⟨19, false⟩ (Except.ok ())).2.2.2 rfl

/-- C8: when the tick reaches a command branch (full-and-plugged, or
low-and-unplugged with held action ≠ ON) and the device command throws,
the failure is caught, a critical notification is fired, the held action
is unchanged, and an identical next tick reproduces the same attempt. -/
theorem C8_command_failure_retries (st : Option ChargeAction)
    (ssid : Option String) (b : BatteryReading) (e : String)
    (hs : ssidAllowed ssid = true)
    (hbr : (BATTERY_MAX ≤ b.percent ∧ b.isPluggedIn = true) ∨
      (b.percent < BATTERY_MIN ∧ b.isPluggedIn = false ∧
        st ≠ some ChargeAction.ON)) :
    (bmTick st ssid (some b) (Except.error e)).1 = st ∧
    ("Battery Manager Error", "Failed to control switch: " ++ e,
        "critical") ∈
      notifEffects (bmTick st ssid (some b) (Except.error e)).2 ∧
    bmTick (bmTick st ssid (some b) (Except.error e)).1 ssid (some b)
        (Except.error e) =
      bmTick st ssid (some b) (Except.error e) := by
  have hstate : (bmTick st ssid (some b) (Except.error e)).1 = st := by
    obtain ⟨p, plug⟩ := b
    unfold bmTick
    by_cases h : ssidAllowed ssid = false <;>
      cases plug <;>
      simp_all [control_switch_2]
  refine ⟨hstate, ?_, by rw [hstate]⟩
  obtain ⟨p, plug⟩ := b
  rcases hbr with ⟨hHi, hplug⟩ | ⟨hLo, hplug, hne⟩ <;>
    subst hplug <;>
    simp_all [bmTick, control_switch_2, notifEffects, BATTERY_MAX,
      BATTERY_MIN]

/-- Witness for C8 at a concrete low-and-unplugged failing tick. -/
theorem C8_command_failure_retries_witness :
    ssidAllowed (some "frans-extender") = true ∧
    ((bmTick none (some "frans-extender") (some ⟨10, false⟩)
        (Except.error "timeout")).1 = none ∧
      ("Battery Manager Error", "Failed to control switch: " ++ "timeout",
          "critical") ∈
        notifEffects (bmTick none (some "frans-extender")
          (some ⟨10, false⟩) (Except.error "timeout")).2 ∧
      bmTick (bmTick none (some "frans-extender") (some ⟨10, false⟩)
          (Except.error "timeout")).1 (some "frans-extender")
          (some ⟨10, false⟩) (Except.error "timeout") =
        bmTick none (some "frans-extender") (some ⟨10, false⟩)
          (Except.error "timeout")) :=
  ⟨by decide,
    C8_command_failure_retries none (some "frans-extender") ⟨10, false⟩
      "timeout" (by decide) (Or.inr ⟨by decide, rfl, by decide⟩)⟩

/-- C9 counterexample: on a successful ON command for a low-and-unplugged
reading, the notification actually sent is titled
"Battery Manager: Charging ON" with body
"Switch 2 turned ON because battery reached limit." — a body that never
mentions a low battery (the shared `control_switch_2` text always says
"battery reached limit", whichever direction was commanded).  This
refutes the claimed text "Charging ON — battery low.". -/
theorem C9_counterexample :
    notifEffects (bmTick none (some "Frans") (some ⟨19, false⟩)
        (Except.ok ())).2 =
      [("Battery Manager: Charging ON",
        "Switch 2 turned ON because battery reached limit.", "normal")] ∧
    strContains "Switch 2 turned ON because battery reached limit."
      "battery low" = false := by decide

/-- C9 amended: a low-and-unplugged reading with held action ≠ ON on a
trusted network with a successful command fires exactly one notification,
of normal urgency, titled "Battery Manager: Charging ON", whose body is
"Switch 2 turned ON because battery reached limit." (not "battery low"),
and the held action becomes ON. -/
theorem C9_on_notification_text (st : Option ChargeAction)
    (ssid : Option String) (b : BatteryReading)
    (hs : ssidAllowed ssid = true) (hLo : b.percent < BATTERY_MIN)
    (hplug : b.isPluggedIn = false) (hne : st ≠ some ChargeAction.ON) :
    notifEffects (bmTick st ssid (some b) (Except.ok ())).2 =
      [("Battery Manager: Charging ON",
        "Switch 2 turned ON because battery reached limit.", "normal")] ∧
    (bmTick st ssid (some b) (Except.ok ())).1 = some ChargeAction.ON := by
  obtain ⟨p, plug⟩ := b
  subst hplug
  simp_all [bmTick, control_switch_2, notifEffects, BATTERY_MAX,
    BATTERY_MIN]

/-- Witness for C9's amended theorem at percent 19 on an allowed ssid. -/
theorem C9_on_notification_text_witness :
    ssidAllowed (some "Frans") = true ∧ (19 : Int) < BATTERY_MIN ∧
    (notifEffects (bmTick (some ChargeAction.OFF) (some "Frans")
        (some ⟨19, false⟩) (Except.ok ())).2 =
      [("Battery Manager: Charging ON",
        "Switch 2 turned ON because battery reached limit.", "normal")] ∧
    (bmTick (some ChargeAction.OFF) (some "Frans") (some ⟨19, false⟩)
        (Except.ok ())).1 = some ChargeAction.ON) :=
  ⟨by decide, by decide,
    C9_on_notification_text (some ChargeAction.OFF) (some "Frans")
      ⟨19, false⟩ (by decide) (by decide) rfl (by decide)⟩

/-- C2 counterexample: a concrete monitor tick (successful online
response) whose effects contain no telemetry write at all — refuting the
claim that every tick emits an `{is_online}` telemetry point. -/
theorem C2_counterexample :
    telemCount (monTick ⟨none, false⟩ (Except.ok (ConnResp.ok true))
      (Except.error "e")).2 = 0 := by decide

/-- C2 amended: the connectivity monitor loop performs no telemetry write
on any tick whatsoever (`monitor_service.py` has no metrics sink; its
tick only logs and notifies). -/
theorem C2_monitor_never_writes_telemetry (st : MonState)
    (conn : Except String ConnResp) (status : StatusResp) :
    telemCount (monTick st conn status).2 = 0 := by
  obtain ⟨lastOnline, flag⟩ := st
  cases conn with
  | error e => simp [monTick, telemCount]
  | ok resp =>
    cases resp <;> cases lastOnline <;> cases flag <;>
      simp [monTick, telemCount] <;>
      (try split_ifs) <;> simp_all [telemCount]

/-- C6: a tick in which the connectivity call throws (the exception is
caught by the loop's top-level handler) leaves the whole monitor state —
in particular the held `ConnectivityState` (`last_is_online`) — exactly
as it was before the tick. -/
theorem C6_exception_leaves_state_unchanged (st : MonState) (e : String)
    (status : StatusResp) :
    (monTick st (Except.error e) status).1 = st ∧
    (monTick st (Except.error e) status).1.last_is_online =
      st.last_is_online := ⟨rfl, rfl⟩

/-- C10: an error-shaped response whose payload does not contain the
access-forbidden pattern is classified as offline (`last_is_online`
becomes `some false`), fires no access-error notification, and leaves
`last_api_error_notified` untouched; a plain boolean response instead
clears that flag. -/
theorem C10_non_access_error_response (st : MonState) (e p : String)
    (status : StatusResp) (h : strContains p accessPat = false) :
    (monTick st (Except.ok (ConnResp.errDict e p)) status).1.last_is_online
      = some false ∧
    (monTick st (Except.ok (ConnResp.errDict e p))
        status).1.last_api_error_notified = st.last_api_error_notified ∧
    accessNotifCount
      (monTick st (Except.ok (ConnResp.errDict e p)) status).2 = 0 ∧
    (∀ b : Bool, (monTick st (Except.ok (ConnResp.ok b))
        status).1.last_api_error_notified = false) := by
  obtain ⟨lastOnline, flag⟩ := st
  refine ⟨?_, ?_, ?_, ?_⟩ <;>
    [skip; skip; skip; intro b] <;>
    rcases lastOnline with _ | lb <;>
    (try cases lb) <;>
    (try cases b) <;>
    simp_all [monTick, accessNotifCount, notifEffects, DEVICE_NAME]

/-- Witness for C10 at a concrete non-access error payload. -/
theorem C10_non_access_error_response_witness :
    strContains "sign invalid" accessPat = false ∧
    ((monTick ⟨some true, true⟩
        (Except.ok (ConnResp.errDict "1004" "sign invalid"))
        (Except.error "e")).1.last_is_online = some false ∧
      (monTick ⟨some true, true⟩
        (Except.ok (ConnResp.errDict "1004" "sign invalid"))
        (Except.error "e")).1.last_api_error_notified =
        (⟨some true, true⟩ : MonState).last_api_error_notified ∧
      accessNotifCount (monTick ⟨some true, true⟩
        (Except.ok (ConnResp.errDict "1004" "sign invalid"))
        (Except.error "e")).2 = 0 ∧
      (∀ b : Bool, (monTick ⟨some true, true⟩
          (Except.ok (ConnResp.ok b))
          (Except.error "e")).1.last_api_error_notified = false)) :=
  ⟨by decide,
    C10_non_access_error_response ⟨some true, true⟩ "1004" "sign invalid"
      (Except.error "e") (by decide)⟩

/-- C4 counterexample: for the observed sequence ONLINE, ONLINE, OFFLINE,
OFFLINE, ONLINE from the initial UNKNOWN state there are only five ticks,
and the online-to-offline critical notification fires at tick 3 (claimed
silent) while tick 4 is silent (claimed to fire); a tick 6 does not
exist.  Per-tick notification counts are checked at ticks 3 and 4. -/
theorem C4_counterexample :
    ((monRun ⟨none, false⟩
      [Except.ok (ConnResp.ok true), Except.ok (ConnResp.ok true),
       Except.ok (ConnResp.ok false), Except.ok (ConnResp.ok false),
       Except.ok (ConnResp.ok true)]
      (Except.ok (some [⟨"switch_1", true⟩, ⟨"switch_2", false⟩]))).2.map
        notifCount).get? 2 = some 1 ∧
    ((monRun ⟨none, false⟩
      [Except.ok (ConnResp.ok true), Except.ok (ConnResp.ok true),
       Except.ok (ConnResp.ok false), Except.ok (ConnResp.ok false),
       Except.ok (ConnResp.ok true)]
      (Except.ok (some [⟨"switch_1", true⟩, ⟨"switch_2", false⟩]))).2.map
        notifCount).get? 3 = some 0 := by decide

/-- C4 amended: the five-tick sequence ONLINE, ONLINE, OFFLINE, OFFLINE,
ONLINE from UNKNOWN notifies exactly at tick 1 (initial online, normal),
tick 3 (online-to-offline, critical) and tick 5 (reconnect, normal);
ticks 2 and 4 are silent, and the run ends online with the error flag
clear. -/
theorem C4_transition_notifications :
    (monRun ⟨none, false⟩
      [Except.ok (ConnResp.ok true), Except.ok (ConnResp.ok true),
       Except.ok (ConnResp.ok false), Except.ok (ConnResp.ok false),
       Except.ok (ConnResp.ok true)]
      (Except.ok (some [⟨"switch_1", true⟩, ⟨"switch_2", false⟩]))).2.map
        notifEffects =
      [[("Socket Kamar Tidur is Online",
         "Initial Status: S1: ON, S2: OFF", "normal")],
       [],
       [("Socket Kamar Tidur is Offline",
         "The device is not connected to WiFi or is unavailable.",
         "critical")],
       [],
       [("Socket Kamar Tidur is Online",
         "Reconnected. Status: S1: ON, S2: OFF", "normal")]] ∧
    (monRun ⟨none, false⟩
      [Except.ok (ConnResp.ok true), Except.ok (ConnResp.ok true),
       Except.ok (ConnResp.ok false), Except.ok (ConnResp.ok false),
       Except.ok (ConnResp.ok true)]
      (Except.ok (some [⟨"switch_1", true⟩, ⟨"switch_2", false⟩]))).1 =
      ⟨some true, false⟩ := by decide

/-- C5: starting with the error flag clear, an access-forbidden error on
two consecutive ticks produces the "not whitelisted" critical
notification exactly once (second suppressed); after the two error
ticks the flag is set; a subsequent plain boolean response clears it, so
a later access-forbidden error notifies again. -/
theorem C5_access_error_dedup (lastOnline : Option Bool) (e p : String)
    (status : StatusResp) (h : strContains p accessPat = true) :
    ((monRun ⟨lastOnline, false⟩
      [Except.ok (ConnResp.errDict e p), Except.ok (ConnResp.errDict e p),
       Except.ok (ConnResp.ok true), Except.ok (ConnResp.errDict e p)]
      status).2.map accessNotifCount = [1, 0, 0, 1]) ∧
    (monRun ⟨lastOnline, false⟩
      [Except.ok (ConnResp.errDict e p), Except.ok (ConnResp.errDict e p)]
      status).1.last_api_error_notified = true ∧
    (monRun ⟨lastOnline, false⟩
      [Except.ok (ConnResp.errDict e p), Except.ok (ConnResp.errDict e p),
       Except.ok (ConnResp.ok true)]
      status).1.last_api_error_notified = false := by
  rcases lastOnline with _ | lb <;> (try cases lb) <;>
    simp [monRun, monTick, h, accessNotifCount, notifEffects, DEVICE_NAME]

/-- Witness for C5 at a concrete access-forbidden payload. -/
theorem C5_access_error_dedup_witness :
    strContains ("sign invalid: " ++ accessPat) accessPat = true ∧
    (((monRun ⟨some true, false⟩
      [Except.ok (ConnResp.errDict "err" ("sign invalid: " ++ accessPat)),
       Except.ok (ConnResp.errDict "err" ("sign invalid: " ++ accessPat)),
       Except.ok (ConnResp.ok true),
       Except.ok (ConnResp.errDict "err" ("sign invalid: " ++ accessPat))]
      (Except.error "e")).2.map accessNotifCount = [1, 0, 0, 1]) ∧
    (monRun ⟨some true, false⟩
      [Except.ok (ConnResp.errDict "err" ("sign invalid: " ++ accessPat)),
       Except.ok (ConnResp.errDict "err" ("sign invalid: " ++ accessPat))]
      (Except.error "e")).1.last_api_error_notified = true ∧
    (monRun ⟨some true, false⟩
      [Except.ok (ConnResp.errDict "err" ("sign invalid: " ++ accessPat)),
       Except.ok (ConnResp.errDict "err" ("sign invalid: " ++ accessPat)),
       Except.ok (ConnResp.ok true)]
      (Except.error "e")).1.last_api_error_notified = false) :=
  ⟨by decide,
    C5_access_error_dedup (some true) "err" ("sign invalid: " ++ accessPat)
      (Except.error "e") (by decide)⟩
